import Mathlib

/-!
Verification of the MindMoney backend request handler (the AWS Lambda in the
repository root, embedded here shallowly).  The handler validates a Cognito
bearer token, runs parameterized MySQL statements, optionally calls the Gemini
text-generation API, and shapes JSON responses.

Modelling conventions:
* machine clock: a single `now : Nat` stands for both `Date.now()` (ms) and
  the database `NOW()`;
* monetary amounts (`DECIMAL(10,2)` columns, JS numbers): `ℚ`;
* the external Cognito verifier and Gemini HTTP call are oracles
  (`CognitoVerify`, `GeminiOutcome`) because their outcomes are decided
  outside this code; everything downstream of an outcome is translated from
  the source;
* `executeQuery` failure is a boolean `dbOk` parameter on the handlers whose
  claims concern store errors;
* thrown JS errors are `Except.error msg`.
-/

namespace MindMoney

deriving instance DecidableEq for Except

/-- Claims record produced by `verifier.verify` (we keep the `sub` claim,
the only one the authorization logic reads). -/
structure Claims where
  sub : String
  deriving DecidableEq

/-- Response body: `{success:true, data}` or `{success:false, error}`. -/
inductive ApiBody (α : Type) where
  | ok (data : α)
  | err (error : String)
  deriving DecidableEq

/-- `createResponse(statusCode, body)`. -/
structure Response (α : Type) where
  statusCode : Nat
  body : ApiBody α
  deriving DecidableEq

/-- Outcome of the Cognito verification of a given token string: verified
claims, or rejection (expired, malformed, wrong audience, bad signature). -/
def CognitoVerify : Type := String → Option Claims

/-- Model of `authHeader.replace(/^Bearer\s+/i, '')` on the character list:
strip a leading case-insensitive `Bearer` followed by one-or-more whitespace
(the `\s+` is greedy, so all leading whitespace after the word goes). -/
def stripBearerChars (l : List Char) : List Char :=
  match l with
  | b :: e :: a :: r :: e2 :: r2 :: w :: rest =>
    if ([b, e, a, r, e2, r2].map Char.toLower == ['b', 'e', 'a', 'r', 'e', 'r']
        && w.isWhitespace)
    then (w :: rest).dropWhile Char.isWhitespace
    else l
  | _ => l

/-- `authHeader.replace(/^Bearer\s+/i, '')`. -/
def stripBearer (s : String) : String :=
  ⟨stripBearerChars s.data⟩

/-- `verifyToken`: the whole body sits in a `try` whose `catch` replaces any
failure — including the internal `'No token provided'` throw — with a generic
`'Invalid token'` error. -/
def verifyToken (authHeader : Option String) (cog : CognitoVerify) : Except String Claims :=
  let token : Option String := authHeader.map stripBearer
  let tryResult : Except String Claims :=
    match token with
    | none => .error "No token provided"
    | some t =>
      if t = "" then .error "No token provided"
      else
        match cog t with
        | some payload => .ok payload
        | none => .error "Invalid token"
  match tryResult with
  | .ok payload => .ok payload
  | .error _ => .error "Invalid token"

/-- The router around token verification: `verifyToken` is awaited inside the
main `try`, whose `catch` returns `createResponse(500, {success:false,
error:message})` for any thrown error. -/
def routeAuthed {α : Type} (auth : Except String Claims) (handler : Claims → Response α) :
    Response α :=
  match auth with
  | .error e => ⟨500, .err e⟩
  | .ok c => handler c

/-- What the Gemini HTTP call can yield before `callGemini` post-processes it:
missing credential, transport/HTTP failure, or a provider response whose first
candidate text may be empty. -/
inductive GeminiOutcome where
  | notConfigured
  | transportError (detail : String)
  | response (text : String)
  deriving DecidableEq

/-- The `try` block of `callGemini`: an axios failure throws its own detail;
an empty extracted text throws `'Empty response from Gemini'`.  (The
`notConfigured` case never reaches the `try`; mapped to its guard error.) -/
def geminiTryBody : GeminiOutcome → Except String String
  | .transportError d => .error d
  | .response t => if t = "" then .error "Empty response from Gemini" else .ok t
  | .notConfigured => .error "GEMINI_API_KEY is not configured"

/-- `callGemini`: the missing-credential guard throws before the `try`; the
`catch` logs the detail and rethrows `'Failed to get AI response'`. -/
def callGemini (o : GeminiOutcome) : Except String String :=
  match o with
  | .notConfigured => .error "GEMINI_API_KEY is not configured"
  | o =>
    match geminiTryBody o with
    | .ok t => .ok t
    | .error _ => .error "Failed to get AI response"

/-! ### Relational store (schema.sql tables reached by the claims) -/

/-- A `spending_entries` row.  `id` is `INT AUTO_INCREMENT PRIMARY KEY`. -/
structure SpendingEntry where
  id : Nat
  user_id : String
  date : String
  amount : ℚ
  description : String
  category : String
  is_necessary : Bool
  created_at : Nat
  deriving DecidableEq

/-- A `savings_goals` row; `user_id` is `UNIQUE`. -/
structure SavingsGoal where
  id : Nat
  user_id : String
  monthly_income : ℚ
  monthly_savings_goal : ℚ
  savings_plan : String
  created_at : Nat
  updated_at : Nat
  deriving DecidableEq

/-- A `chat_messages` row. -/
structure ChatMessage where
  id : Nat
  user_id : String
  message : String
  is_user : Bool
  timestamp : Nat
  deriving DecidableEq

/-- The relational store state reached by the claims, with the next
auto-increment value of each table. -/
structure Store where
  spending_entries : List SpendingEntry
  savings_goals : List SavingsGoal
  chat_messages : List ChatMessage
  nextEntryId : Nat
  nextGoalId : Nat
  nextMsgId : Nat
  deriving DecidableEq

def emptyStore : Store :=
  { spending_entries := [], savings_goals := [], chat_messages := [],
    nextEntryId := 1, nextGoalId := 1, nextMsgId := 1 }

/-! ### Request/response shapes -/

/-- Parsed body of `POST /spending/entry` and `PUT /spending/entry/{id}`. -/
structure EntryBody where
  date : String
  amount : ℚ
  description : String
  category : String
  isNecessary : Bool
  deriving DecidableEq

/-- Parsed body of `POST /savings/goal`. -/
structure GoalBody where
  monthlyIncome : ℚ
  monthlySavingsGoal : ℚ
  deriving DecidableEq

/-- Payload shape shared by add-entry and update-entry responses
(`createdAt`, an ISO string in the JSON, is kept as the clock value). -/
structure EntryData where
  id : String
  userId : String
  date : String
  amount : ℚ
  description : String
  category : String
  isNecessary : Bool
  createdAt : Nat
  deriving DecidableEq

/-- Payload shape of set-goal and get-goal responses. -/
structure GoalData where
  id : String
  userId : String
  monthlyIncome : ℚ
  monthlySavingsGoal : ℚ
  savingsPlan : String
  createdAt : Nat
  updatedAt : Nat
  deriving DecidableEq

/-- Payload of `GET /analysis/daily/{userId}`. -/
structure DailyAnalysisData where
  date : Option String
  totalSpent : ℚ
  necessarySpent : ℚ
  unnecessarySpent : ℚ
  onTrack : Bool
  analysis : String
  recommendations : List String
  deriving DecidableEq

/-- Payload element of chat responses (`isUser` renders `is_user === 1`). -/
structure ChatMsgData where
  id : String
  userId : String
  message : String
  isUser : Bool
  timestamp : Nat
  deriving DecidableEq

/-! ### Query helpers (the SQL statements the handlers execute) -/

/-- JS truthiness of an optional string: `null`/`undefined` and `""` are falsy. -/
def truthy : Option String → Bool
  | none => false
  | some s => !(s == "")

/-- `SELECT * FROM spending_entries WHERE user_id = ? [AND date = ?]
ORDER BY created_at DESC` (list-entries; the date filter only when a `date`
query parameter is present). -/
def querySpendingEntries (s : Store) (userId : String) (date : Option String) :
    List SpendingEntry :=
  List.insertionSort (fun a b => b.created_at ≤ a.created_at)
    (s.spending_entries.filter (fun e =>
      e.user_id == userId &&
        (match date with | none => true | some d => e.date == d)))

/-- `SELECT * FROM spending_entries WHERE user_id = ? AND date = ?`
(daily analysis; a NULL `date` bind value matches no row). -/
def queryEntriesForDate (s : Store) (userId : String) (date : Option String) :
    List SpendingEntry :=
  s.spending_entries.filter (fun e =>
    e.user_id == userId &&
      (match date with | some d => e.date == d | none => false))

/-- `SELECT * FROM savings_goals WHERE user_id = ?` destructured as
`[savingsGoal]` (at most one row: `user_id` is UNIQUE). -/
def savingsGoalOf (s : Store) (userId : String) : Option SavingsGoal :=
  s.savings_goals.find? (fun g => g.user_id == userId)

/-- `entries.reduce((sum, entry) => sum + entry.amount, 0)`. -/
def sumAmounts (l : List SpendingEntry) : ℚ :=
  (l.map (fun e => e.amount)).sum

/-- Decimal reading of a character list (`none` on empty input or any
non-digit character). -/
def natOfDigits (l : List Char) : Option Nat :=
  if l.isEmpty then none
  else l.foldl (fun acc? c =>
    match acc? with
    | none => none
    | some acc => if c.isDigit then some (acc * 10 + (c.toNat - 48)) else none) (some 0)

/-- MySQL comparison of the VARCHAR path id against the INT `id` column:
the string parameter is coerced to a number, so a row matches when the path
id reads as its integer id. -/
def entryIdMatches (entryId : String) (e : SpendingEntry) : Bool :=
  natOfDigits entryId.data == some e.id

/-- `INSERT INTO savings_goals ... ON DUPLICATE KEY UPDATE ...`
(the duplicate key is the UNIQUE `user_id`). -/
def upsertSavingsGoal (s : Store) (userId : String) (inc goal : ℚ) (plan : String)
    (now : Nat) : Store :=
  if s.savings_goals.any (fun g => g.user_id == userId) then
    { s with savings_goals := s.savings_goals.map (fun g =>
        if g.user_id == userId then
          { g with
            monthly_income := inc
            monthly_savings_goal := goal
            savings_plan := plan
            updated_at := now }
        else g) }
  else
    { s with
      savings_goals := s.savings_goals ++
        [{ id := s.nextGoalId
           user_id := userId
           monthly_income := inc
           monthly_savings_goal := goal
           savings_plan := plan
           created_at := now
           updated_at := now }]
      nextGoalId := s.nextGoalId + 1 }

/-! ### Domain operation handlers

Each handler is translated from its source function.  `sub` is
`userPayload.sub` (the router has already verified the token on these
routes); `now` is the clock; `pathUserId` is the JS value of `userId` after
the `pathParameters` / `extractUserIdFromPath` resolution (`none` =
`undefined`). -/

/-- Line 325 of the handler source:
`savingsGoal ? (monthly_income - monthly_savings_goal) / 30 : 0`. -/
def dailyBudgetOf (s : Store) (userId : String) : ℚ :=
  match savingsGoalOf s userId with
  | some g => (g.monthly_income - g.monthly_savings_goal) / 30
  | none => 0

/-- `handleAddSpendingEntry`: INSERT with `created_at = NOW()`, then a 200
payload whose `id` is `Date.now().toString()`. -/
def handleAddSpendingEntry (body : EntryBody) (sub : String) (now : Nat) (s : Store) :
    Store × Response EntryData :=
  let row : SpendingEntry :=
    { id := s.nextEntryId
      user_id := sub
      date := body.date
      amount := body.amount
      description := body.description
      category := body.category
      is_necessary := body.isNecessary
      created_at := now }
  let s' : Store :=
    { s with
      spending_entries := s.spending_entries ++ [row]
      nextEntryId := s.nextEntryId + 1 }
  (s', ⟨200, .ok
    { id := Nat.repr now
      userId := sub
      date := body.date
      amount := body.amount
      description := body.description
      category := body.category
      isNecessary := body.isNecessary
      createdAt := now }⟩)

/-- `handleGetSpendingEntries`: 403 only when a truthy `userId` mismatches the
subject; the store query is inside a `try` whose `catch` returns a 200 with an
empty list (`dbOk = false` is the query raising). -/
def handleGetSpendingEntries (pathUserId : Option String) (date : Option String)
    (sub : String) (dbOk : Bool) (s : Store) : Response (List SpendingEntry) :=
  if truthy pathUserId ∧ pathUserId ≠ some sub then ⟨403, .err "Unauthorized"⟩
  else
    let effectiveUserId : Option String :=
      if truthy pathUserId then pathUserId else some sub
    if ¬ truthy effectiveUserId then ⟨400, .err "Missing userId"⟩
    else if dbOk then
      ⟨200, .ok (querySpendingEntries s (effectiveUserId.getD sub) date)⟩
    else ⟨200, .ok []⟩

/-- `handleSetSavingsGoal`: the Gemini call is outside any `try` (its failure
propagates to the router); the upsert sits in a `try` whose `catch` is empty,
so the operation succeeds without persistence when the store call raises. -/
def handleSetSavingsGoal (body : GoalBody) (sub : String) (now : Nat)
    (gemini : GeminiOutcome) (dbOk : Bool) (s : Store) :
    Except String (Store × Response GoalData) :=
  match callGemini gemini with
  | .error e => .error e
  | .ok savingsPlan =>
    let s' : Store :=
      if dbOk then
        upsertSavingsGoal s sub body.monthlyIncome body.monthlySavingsGoal savingsPlan now
      else s
    .ok (s', ⟨200, .ok
      { id := Nat.repr now
        userId := sub
        monthlyIncome := body.monthlyIncome
        monthlySavingsGoal := body.monthlySavingsGoal
        savingsPlan := savingsPlan
        createdAt := now
        updatedAt := now }⟩)

/-- The payload computation of `handleGetDailyAnalysis` for an authorized
request whose generation call returned `analysis`: totals over the day's
entries, the savings-goal lookup, and the fixed on-track rule
`totalSpent <= dailyBudget * 0.8`. -/
def dailyAnalysisData (s : Store) (userId : String) (date : Option String)
    (analysis : String) : DailyAnalysisData :=
  let entries := queryEntriesForDate s userId date
  let totalSpent := sumAmounts entries
  let necessarySpent := sumAmounts (entries.filter (fun e => e.is_necessary))
  let unnecessarySpent := totalSpent - necessarySpent
  let dailyBudget := dailyBudgetOf s userId
  let onTrack : Bool := decide (totalSpent ≤ dailyBudget * ((8 : ℚ) / 10))
  { date := date
    totalSpent := totalSpent
    necessarySpent := necessarySpent
    unnecessarySpent := unnecessarySpent
    onTrack := onTrack
    analysis := analysis
    recommendations :=
      [(if onTrack then "Great job staying within budget!"
        else "Consider reducing unnecessary expenses"),
       "Track your spending daily to stay on top of your goals",
       "Review your budget weekly to make adjustments"] }

/-- `handleGetDailyAnalysis`: 403 on path/subject mismatch (before any query),
then the Gemini call (whose failure propagates) and the analysis payload. -/
def handleGetDailyAnalysis (pathUserId : Option String) (date : Option String)
    (sub : String) (gemini : GeminiOutcome) (s : Store) :
    Except String (Response DailyAnalysisData) :=
  if pathUserId ≠ some sub then .ok ⟨403, .err "Unauthorized"⟩
  else
    match callGemini gemini with
    | .error e => .error e
    | .ok analysis => .ok ⟨200, .ok (dailyAnalysisData s sub date analysis)⟩

/-- `handleGetSavingsGoal`: 403 on path/subject mismatch before any query;
404 when no goal row exists; otherwise the row rendered as the payload. -/
def handleGetSavingsGoal (pathUserId : Option String) (sub : String) (s : Store) :
    Response GoalData :=
  if pathUserId ≠ some sub then ⟨403, .err "Unauthorized"⟩
  else
    match savingsGoalOf s sub with
    | none => ⟨404, .err "Savings goal not found"⟩
    | some g =>
      ⟨200, .ok
        { id := Nat.repr g.id
          userId := g.user_id
          monthlyIncome := g.monthly_income
          monthlySavingsGoal := g.monthly_savings_goal
          savingsPlan := g.savings_plan
          createdAt := g.created_at
          updatedAt := g.updated_at }⟩

/-- `handleUpdateSpendingEntry`: ownership probe
`SELECT ... WHERE id = ? AND user_id = ?`, 404 when absent, else
`UPDATE ... SET date, amount, description, category, is_necessary
WHERE id = ? AND user_id = ?` and a 200 payload echoing the body with the
probed row's `created_at`. -/
def handleUpdateSpendingEntry (entryId : String) (body : EntryBody) (sub : String)
    (s : Store) : Store × Response EntryData :=
  match s.spending_entries.find? (fun e => entryIdMatches entryId e && e.user_id == sub) with
  | none => (s, ⟨404, .err "Entry not found"⟩)
  | some existingEntry =>
    let s' : Store :=
      { s with spending_entries := s.spending_entries.map (fun e =>
          if entryIdMatches entryId e && e.user_id == sub then
            { e with
              date := body.date
              amount := body.amount
              description := body.description
              category := body.category
              is_necessary := body.isNecessary }
          else e) }
    (s', ⟨200, .ok
      { id := entryId
        userId := sub
        date := body.date
        amount := body.amount
        description := body.description
        category := body.category
        isNecessary := body.isNecessary
        createdAt := existingEntry.created_at }⟩)

/-- `handleDeleteSpendingEntry`: same ownership probe, 404 when absent, else
`DELETE ... WHERE id = ? AND user_id = ?` and a 200 with `data:null`
(modelled as `Unit`). -/
def handleDeleteSpendingEntry (entryId : String) (sub : String) (s : Store) :
    Store × Response Unit :=
  match s.spending_entries.find? (fun e => entryIdMatches entryId e && e.user_id == sub) with
  | none => (s, ⟨404, .err "Entry not found"⟩)
  | some _ =>
    ({ s with spending_entries := s.spending_entries.filter (fun e =>
        !(entryIdMatches entryId e && e.user_id == sub)) },
     ⟨200, .ok ()⟩)

/-- `handleChatMessage` (store effects only; the context prompt feeds the
oracle): on generation success, two INSERTs into `chat_messages`, both with
`timestamp = NOW()` — the same clock value. -/
def handleChatMessage (message : String) (sub : String) (now : Nat)
    (gemini : GeminiOutcome) (s : Store) :
    Except String (Store × Response ChatMsgData) :=
  match callGemini gemini with
  | .error e => .error e
  | .ok response =>
    let userMsg : ChatMessage :=
      { id := s.nextMsgId, user_id := sub, message := message
        is_user := true, timestamp := now }
    let botMsg : ChatMessage :=
      { id := s.nextMsgId + 1, user_id := sub, message := response
        is_user := false, timestamp := now }
    let s' : Store :=
      { s with
        chat_messages := s.chat_messages ++ [userMsg, botMsg]
        nextMsgId := s.nextMsgId + 2 }
    .ok (s', ⟨200, .ok
      { id := Nat.repr now
        userId := sub
        message := response
        isUser := false
        timestamp := now }⟩)

/-- `SELECT * FROM chat_messages WHERE user_id = ? ORDER BY timestamp DESC
LIMIT 50`. -/
def queryChatHistory (s : Store) (userId : String) : List ChatMessage :=
  (List.insertionSort (fun a b => b.timestamp ≤ a.timestamp)
    (s.chat_messages.filter (fun m => m.user_id == userId))).take 50

/-- `handleGetChatHistory`: 403 on path/subject mismatch, else the query
result mapped to the payload shape. -/
def handleGetChatHistory (pathUserId : Option String) (sub : String) (s : Store) :
    Response (List ChatMsgData) :=
  if pathUserId ≠ some sub then ⟨403, .err "Unauthorized"⟩
  else
    ⟨200, .ok ((queryChatHistory s sub).map (fun msg =>
      { id := Nat.repr msg.id
        userId := msg.user_id
        message := msg.message
        isUser := msg.is_user
        timestamp := msg.timestamp }))⟩

/-! ### Shared helper lemmas and concrete fixtures -/

/-- `find?` returns the unique element satisfying the predicate. -/
theorem find_unique {α : Type} {p : α → Bool} {l : List α} {a : α}
    (ha : a ∈ l) (hpa : p a = true) (huniq : ∀ e ∈ l, p e = true → e = a) :
    l.find? p = some a := by
  induction l with
  | nil => cases ha
  | cons x xs ih =>
    rcases List.mem_cons.mp ha with rfl | hmem
    · rw [List.find?_cons_of_pos _ hpa]
    · by_cases hx : p x = true
      · have hxa : x = a := huniq x (List.mem_cons_self _ _) hx
        subst hxa
        rw [List.find?_cons_of_pos _ hpa]
      · rw [List.find?_cons_of_neg _ hx]
        exact ih hmem (fun e he hp => huniq e (List.mem_cons_of_mem _ he) hp)

/-- `verifyToken` never surfaces any message other than `"Invalid token"`. -/
theorem verifyToken_ok_or_invalid (h : Option String) (cog : CognitoVerify) :
    (∃ c, verifyToken h cog = .ok c) ∨ verifyToken h cog = .error "Invalid token" := by
  unfold verifyToken
  rcases h with _ | a
  · exact Or.inr rfl
  · simp only [Option.map_some']
    by_cases he : stripBearer a = ""
    · simp [he]
    · simp only [he, if_neg he, ite_false]
      cases hc : cog (stripBearer a) with
      | none => exact Or.inr rfl
      | some c => exact Or.inl ⟨c, rfl⟩

instance : IsTotal ChatMessage (fun a b => b.timestamp ≤ a.timestamp) :=
  ⟨fun a b => Nat.le_total b.timestamp a.timestamp⟩

instance : IsTrans ChatMessage (fun a b => b.timestamp ≤ a.timestamp) :=
  ⟨fun _ _ _ hab hbc => le_trans hbc hab⟩

/-- Fixture: the savings-goal row of the spec's boundary example
(`monthlyIncome = 3000`, `monthlySavingsGoal = 900`). -/
def goalRow3000 : SavingsGoal :=
  { id := 1, user_id := "abc", monthly_income := 3000, monthly_savings_goal := 900
    savings_plan := "plan", created_at := 0, updated_at := 0 }

/-- Fixture: one spending entry of 55 on the queried day. -/
def entry55 : SpendingEntry :=
  { id := 1, user_id := "abc", date := "2025-01-02", amount := 55
    description := "coffee", category := "food", is_necessary := true, created_at := 5 }

/-- Fixture store for the `totalSpent = 55` boundary case. -/
def store55 : Store :=
  { spending_entries := [entry55], savings_goals := [goalRow3000], chat_messages := []
    nextEntryId := 2, nextGoalId := 2, nextMsgId := 1 }

/-- Fixture store for the `totalSpent = 60` boundary case. -/
def store60 : Store :=
  { store55 with spending_entries := [{ entry55 with amount := 60 }] }

/-- Fixture: a savings-goal row owned by `"xyz"`. -/
def goalRowXyz : SavingsGoal :=
  { id := 7, user_id := "xyz", monthly_income := 100, monthly_savings_goal := 10
    savings_plan := "p", created_at := 3, updated_at := 4 }

/-- Fixture store in which `"xyz"` has a goal row. -/
def storeWithXyzGoal : Store :=
  { emptyStore with savings_goals := [goalRowXyz], nextGoalId := 8 }

/-! ### Claim theorems -/

/-- C2 counterexample: a request with no Authorization header fails with the
error message "Invalid token" (the internal "No token provided" throw is
swallowed by `verifyToken`'s catch), and the router maps the failure to a 500
envelope, not a 401-equivalent. -/
theorem missing_token_maps_to_invalid_500 :
    verifyToken none (fun _ => none) = .error "Invalid token" ∧
    verifyToken none (fun _ => none) ≠ .error "No token provided" ∧
    (routeAuthed (verifyToken none (fun _ => none))
      (fun c => handleGetSavingsGoal (some c.sub) c.sub emptyStore)).statusCode = 500 ∧
    (routeAuthed (verifyToken none (fun _ => none))
      (fun c => handleGetSavingsGoal (some c.sub) c.sub emptyStore)).statusCode ≠ 401 := by
  refine ⟨rfl, ?_, rfl, by decide⟩
  intro hc
  exact absurd (Except.error.inj hc) (by decide)

/-- C2 (amended): a missing Authorization header and a header carrying no
token fail with the same generic "Invalid token" message as every other
verification failure — the "No token provided" distinction exists only in
logs — and the router maps any authentication failure to a 500-status error
envelope. -/
theorem auth_failures_generic_500 (cog : CognitoVerify) (h : Option String)
    (hfail : ∀ c, verifyToken h cog ≠ .ok c) :
    verifyToken h cog = .error "Invalid token" ∧
    verifyToken none cog = .error "Invalid token" ∧
    verifyToken (some "Bearer ") cog = .error "Invalid token" ∧
    ∀ (hd : Claims → Response GoalData),
      routeAuthed (verifyToken h cog) hd = ⟨500, .err "Invalid token"⟩ := by
  have h1 : verifyToken h cog = .error "Invalid token" := by
    rcases verifyToken_ok_or_invalid h cog with ⟨c, hc⟩ | hinv
    · exact absurd hc (hfail c)
    · exact hinv
  have h2 : verifyToken none cog = .error "Invalid token" := rfl
  have hsb : stripBearer "Bearer " = "" := by decide
  have h3 : verifyToken (some "Bearer ") cog = .error "Invalid token" := by
    simp [verifyToken, hsb]
  refine ⟨h1, h2, h3, fun hd => ?_⟩
  rw [h1]
  rfl

/-- C2 witness for `auth_failures_generic_500` at a verifier that rejects
every token and a request with no Authorization header. -/
theorem auth_failures_generic_500_witness :
    verifyToken none (fun _ => none) = .error "Invalid token" ∧
    verifyToken none (fun _ => none) = .error "Invalid token" ∧
    verifyToken (some "Bearer ") (fun _ => none) = .error "Invalid token" ∧
    ∀ (hd : Claims → Response GoalData),
      routeAuthed (verifyToken none (fun _ => none)) hd = ⟨500, .err "Invalid token"⟩ :=
  auth_failures_generic_500 (fun _ => none) none
    (fun _ hc => Except.noConfusion hc)

/-- C5 counterexample: an empty provider response and a transport failure
produce the same error value, so the caller cannot tell them apart — there is
no distinct "empty response" failure. -/
theorem gemini_indistinguishable_errors :
    callGemini (.response "") = .error "Failed to get AI response" ∧
    callGemini (.transportError "socket hang up") = .error "Failed to get AI response" ∧
    callGemini (.response "") = callGemini (.transportError "socket hang up") := by
  exact ⟨rfl, rfl, rfl⟩

/-- C5 (amended): `callGemini` distinguishes exactly two failures: a missing
credential fails with "GEMINI_API_KEY is not configured", while an empty
provider response and a transport failure both fail with the single message
"Failed to get AI response"; a non-empty text is returned unchanged. -/
theorem callGemini_error_cases (d t : String) (ht : t ≠ "") :
    callGemini .notConfigured = .error "GEMINI_API_KEY is not configured" ∧
    callGemini (.transportError d) = .error "Failed to get AI response" ∧
    callGemini (.response "") = .error "Failed to get AI response" ∧
    callGemini (.response t) = .ok t := by
  refine ⟨rfl, rfl, rfl, ?_⟩
  simp [callGemini, geminiTryBody, ht]

/-- C5 witness for `callGemini_error_cases` at a concrete transport detail and
a concrete non-empty text. -/
theorem callGemini_error_cases_witness :
    callGemini .notConfigured = .error "GEMINI_API_KEY is not configured" ∧
    callGemini (.transportError "boom") = .error "Failed to get AI response" ∧
    callGemini (.response "") = .error "Failed to get AI response" ∧
    callGemini (.response "hello") = .ok "hello" :=
  callGemini_error_cases "boom" "hello" (by decide)

/-- C3: on every route carrying a target userId, a path/subject mismatch
yields the `{success:false, error:"Unauthorized"}` envelope at status 403,
identically for every store state (shown for get-savings-goal and
get-daily-analysis, the two cited handlers). -/
theorem path_mismatch_uniform_403 (uid sub : String) (date : Option String)
    (g : GeminiOutcome) (s s' : Store) (h : uid ≠ sub) :
    handleGetSavingsGoal (some uid) sub s = ⟨403, .err "Unauthorized"⟩ ∧
    handleGetDailyAnalysis (some uid) date sub g s = .ok ⟨403, .err "Unauthorized"⟩ ∧
    handleGetSavingsGoal (some uid) sub s = handleGetSavingsGoal (some uid) sub s' ∧
    handleGetDailyAnalysis (some uid) date sub g s =
      handleGetDailyAnalysis (some uid) date sub g s' := by
  have hne : (some uid : Option String) ≠ some sub := by simpa using h
  refine ⟨?_, ?_, ?_, ?_⟩
  · simp [handleGetSavingsGoal, hne]
  · simp [handleGetDailyAnalysis, hne]
  · simp [handleGetSavingsGoal, hne]
  · simp [handleGetDailyAnalysis, hne]

/-- C3 witness: token subject "abc", path userId "xyz", compared across a
store where "xyz" has a goal row and one where it does not. -/
theorem path_mismatch_uniform_403_witness :
    handleGetSavingsGoal (some "xyz") "abc" storeWithXyzGoal = ⟨403, .err "Unauthorized"⟩ ∧
    handleGetDailyAnalysis (some "xyz") none "abc" .notConfigured storeWithXyzGoal =
      .ok ⟨403, .err "Unauthorized"⟩ ∧
    handleGetSavingsGoal (some "xyz") "abc" storeWithXyzGoal =
      handleGetSavingsGoal (some "xyz") "abc" emptyStore ∧
    handleGetDailyAnalysis (some "xyz") none "abc" .notConfigured storeWithXyzGoal =
      handleGetDailyAnalysis (some "xyz") none "abc" .notConfigured emptyStore :=
  path_mismatch_uniform_403 "xyz" "abc" none .notConfigured storeWithXyzGoal emptyStore
    (by decide)

/-- C4: store errors are soft-failed in the two cited handlers — a failing
entries query yields a 200 success with an empty list, and a failing goal
upsert (after a successful generation) yields a 200 success carrying the
submitted income, goal and generated plan with the store untouched — while a
generation failure in set-goal propagates as an error. -/
theorem soft_fail_policy (sub : String) (hsub : sub ≠ "") (date : Option String)
    (s s2 : Store) (body : GoalBody) (now : Nat) (t : String) (ht : t ≠ "")
    (d : String) (dbOk : Bool) :
    handleGetSpendingEntries (some sub) date sub false s = ⟨200, .ok []⟩ ∧
    handleGetSpendingEntries none date sub false s = ⟨200, .ok []⟩ ∧
    handleSetSavingsGoal body sub now (.response t) false s =
      .ok (s, ⟨200, .ok
        { id := Nat.repr now
          userId := sub
          monthlyIncome := body.monthlyIncome
          monthlySavingsGoal := body.monthlySavingsGoal
          savingsPlan := t
          createdAt := now
          updatedAt := now }⟩) ∧
    handleSetSavingsGoal body sub now (.transportError d) dbOk s2 =
      .error "Failed to get AI response" ∧
    handleSetSavingsGoal body sub now (.response "") dbOk s2 =
      .error "Failed to get AI response" ∧
    handleSetSavingsGoal body sub now .notConfigured dbOk s2 =
      .error "GEMINI_API_KEY is not configured" := by
  have hcg : callGemini (.response t) = .ok t := by
    simp [callGemini, geminiTryBody, ht]
  refine ⟨?_, ?_, ?_, rfl, rfl, rfl⟩
  · simp [handleGetSpendingEntries, truthy, hsub]
  · simp [handleGetSpendingEntries, truthy, hsub]
  · simp [handleSetSavingsGoal, hcg]

/-- C4 witness for `soft_fail_policy` at a concrete subject, goal body,
clock, generated text and transport detail. -/
theorem soft_fail_policy_witness :
    handleGetSpendingEntries (some "abc") (some "2025-01-02") "abc" false store55 =
      ⟨200, .ok []⟩ ∧
    handleGetSpendingEntries none (some "2025-01-02") "abc" false store55 =
      ⟨200, .ok []⟩ ∧
    handleSetSavingsGoal ⟨3000, 900⟩ "abc" 1700 (.response "plan") false store55 =
      .ok (store55, ⟨200, .ok
        { id := Nat.repr 1700
          userId := "abc"
          monthlyIncome := 3000
          monthlySavingsGoal := 900
          savingsPlan := "plan"
          createdAt := 1700
          updatedAt := 1700 }⟩) ∧
    handleSetSavingsGoal ⟨3000, 900⟩ "abc" 1700 (.transportError "boom") true store55 =
      .error "Failed to get AI response" ∧
    handleSetSavingsGoal ⟨3000, 900⟩ "abc" 1700 (.response "") true store55 =
      .error "Failed to get AI response" ∧
    handleSetSavingsGoal ⟨3000, 900⟩ "abc" 1700 .notConfigured true store55 =
      .error "GEMINI_API_KEY is not configured" :=
  soft_fail_policy "abc" (by decide) (some "2025-01-02") store55 store55
    ⟨3000, 900⟩ 1700 "plan" (by decide) "boom" true

/-- C1: for every authorized daily-analysis request (path userId equals the
token subject) with a successful generation, the payload's `totalSpent` is the
sum of the day's entries and `onTrack` holds exactly when
`totalSpent ≤ dailyBudget * 0.8`, where `dailyBudget` is
`(monthlyIncome - monthlySavingsGoal) / 30` when a goal row exists and `0`
otherwise (so with non-negative spending, onTrack iff `totalSpent = 0`); at
the spec's boundary fixtures (income 3000, goal 900) `totalSpent = 55` is on
track and `totalSpent = 60` is not. -/
theorem dailyAnalysis_budget_rule (sub t : String) (date : Option String)
    (s : Store) (ht : t ≠ "") :
    (handleGetDailyAnalysis (some sub) date sub (.response t) s =
      .ok ⟨200, .ok (dailyAnalysisData s sub date t)⟩ ∧
      (dailyAnalysisData s sub date t).totalSpent =
        sumAmounts (queryEntriesForDate s sub date) ∧
      ((dailyAnalysisData s sub date t).onTrack = true ↔
        (dailyAnalysisData s sub date t).totalSpent ≤
          dailyBudgetOf s sub * ((8 : ℚ) / 10)) ∧
      (∀ g, savingsGoalOf s sub = some g →
        dailyBudgetOf s sub = (g.monthly_income - g.monthly_savings_goal) / 30) ∧
      (savingsGoalOf s sub = none → dailyBudgetOf s sub = 0) ∧
      (savingsGoalOf s sub = none →
        0 ≤ (dailyAnalysisData s sub date t).totalSpent →
        ((dailyAnalysisData s sub date t).onTrack = true ↔
          (dailyAnalysisData s sub date t).totalSpent = 0))) ∧
    ((dailyAnalysisData store55 "abc" (some "2025-01-02") "a").totalSpent = 55 ∧
      dailyBudgetOf store55 "abc" = 70 ∧
      (dailyAnalysisData store55 "abc" (some "2025-01-02") "a").onTrack = true) ∧
    ((dailyAnalysisData store60 "abc" (some "2025-01-02") "a").totalSpent = 60 ∧
      (dailyAnalysisData store60 "abc" (some "2025-01-02") "a").onTrack = false) := by
  have hcg : callGemini (.response t) = .ok t := by
    simp [callGemini, geminiTryBody, ht]
  have h55 : sumAmounts (queryEntriesForDate store55 "abc" (some "2025-01-02")) = 55 := by
    simp [sumAmounts, queryEntriesForDate, store55, entry55]
  have h60 : sumAmounts (queryEntriesForDate store60 "abc" (some "2025-01-02")) = 60 := by
    simp [sumAmounts, queryEntriesForDate, store60, store55, entry55]
  have hbud : dailyBudgetOf store55 "abc" = 70 := by
    simp [dailyBudgetOf, savingsGoalOf, store55, goalRow3000]
    norm_num
  have hbud60 : dailyBudgetOf store60 "abc" = 70 := by
    simp [dailyBudgetOf, savingsGoalOf, store60, store55, goalRow3000]
    norm_num
  refine ⟨⟨?_, rfl, decide_eq_true_iff, ?_, ?_, ?_⟩, ⟨?_, hbud, ?_⟩, ?_, ?_⟩
  · simp [handleGetDailyAnalysis, hcg]
  · intro g hg
    simp [dailyBudgetOf, hg]
  · intro hnone
    simp [dailyBudgetOf, hnone]
  · intro hnone hpos
    have hb : dailyBudgetOf s sub = 0 := by simp [dailyBudgetOf, hnone]
    rw [show (dailyAnalysisData s sub date t).onTrack
        = decide ((dailyAnalysisData s sub date t).totalSpent ≤
            dailyBudgetOf s sub * ((8 : ℚ) / 10)) from rfl]
    rw [decide_eq_true_iff, hb, zero_mul]
    exact ⟨fun hle => le_antisymm hle hpos, fun he => le_of_eq he⟩
  · simp [dailyAnalysisData, h55]
  · rw [show (dailyAnalysisData store55 "abc" (some "2025-01-02") "a").onTrack
        = decide (sumAmounts (queryEntriesForDate store55 "abc" (some "2025-01-02")) ≤
            dailyBudgetOf store55 "abc" * ((8 : ℚ) / 10)) from rfl]
    rw [decide_eq_true_iff, h55, hbud]
    norm_num
  · simp [dailyAnalysisData, h60]
  · rw [show (dailyAnalysisData store60 "abc" (some "2025-01-02") "a").onTrack
        = decide (sumAmounts (queryEntriesForDate store60 "abc" (some "2025-01-02")) ≤
            dailyBudgetOf store60 "abc" * ((8 : ℚ) / 10)) from rfl]
    rw [decide_eq_false_iff_not, h60, hbud60]
    norm_num

/-- C1 witness for `dailyAnalysis_budget_rule` at the boundary fixture store
and a concrete non-empty generation text. -/
theorem dailyAnalysis_budget_rule_witness :
    handleGetDailyAnalysis (some "abc") (some "2025-01-02") "abc" (.response "a") store55 =
      .ok ⟨200, .ok (dailyAnalysisData store55 "abc" (some "2025-01-02") "a")⟩ ∧
    (dailyAnalysisData store55 "abc" (some "2025-01-02") "a").totalSpent =
      sumAmounts (queryEntriesForDate store55 "abc" (some "2025-01-02")) ∧
    ((dailyAnalysisData store55 "abc" (some "2025-01-02") "a").onTrack = true ↔
      (dailyAnalysisData store55 "abc" (some "2025-01-02") "a").totalSpent ≤
        dailyBudgetOf store55 "abc" * ((8 : ℚ) / 10)) ∧
    (∀ g, savingsGoalOf store55 "abc" = some g →
      dailyBudgetOf store55 "abc" = (g.monthly_income - g.monthly_savings_goal) / 30) ∧
    (savingsGoalOf store55 "abc" = none → dailyBudgetOf store55 "abc" = 0) ∧
    (savingsGoalOf store55 "abc" = none →
      0 ≤ (dailyAnalysisData store55 "abc" (some "2025-01-02") "a").totalSpent →
      ((dailyAnalysisData store55 "abc" (some "2025-01-02") "a").onTrack = true ↔
        (dailyAnalysisData store55 "abc" (some "2025-01-02") "a").totalSpent = 0)) :=
  (dailyAnalysis_budget_rule "abc" "a" (some "2025-01-02") store55 (by decide)).1

/-- Fixture: a spending entry owned by user "A". -/
def entryA : SpendingEntry :=
  { id := 1, user_id := "A", date := "2025-01-02", amount := 55
    description := "coffee", category := "food", is_necessary := true, created_at := 5 }

/-- Fixture store holding only A's entry. -/
def storeAB : Store :=
  { emptyStore with spending_entries := [entryA], nextEntryId := 2 }

/-- C6: a different user B's update or delete on A's entry id answers 404
"Entry not found" with the store unchanged and no entry data in the response;
moreover every update/delete issued under subject B leaves every row not
owned by B in the store untouched. -/
theorem cross_user_update_delete_not_found (s : Store) (a : SpendingEntry)
    (body : EntryBody) (subB entryId : String)
    (_ha : a ∈ s.spending_entries) (hA : a.user_id ≠ subB)
    (hid : natOfDigits entryId.data = some a.id)
    (huniq : ∀ e ∈ s.spending_entries, e.id = a.id → e = a) :
    handleUpdateSpendingEntry entryId body subB s = (s, ⟨404, .err "Entry not found"⟩) ∧
    handleDeleteSpendingEntry entryId subB s = (s, ⟨404, .err "Entry not found"⟩) ∧
    (∀ (eid : String) (b2 : EntryBody) (s0 : Store), ∀ e ∈ s0.spending_entries,
      e.user_id ≠ subB →
      e ∈ (handleUpdateSpendingEntry eid b2 subB s0).1.spending_entries) ∧
    (∀ (eid : String) (s0 : Store), ∀ e ∈ s0.spending_entries,
      e.user_id ≠ subB →
      e ∈ (handleDeleteSpendingEntry eid subB s0).1.spending_entries) := by
  have hnone : s.spending_entries.find?
      (fun e => entryIdMatches entryId e && e.user_id == subB) = none := by
    rw [List.find?_eq_none]
    intro e he hp
    rw [Bool.and_eq_true] at hp
    have hm : entryIdMatches entryId e = true := hp.1
    have hu : (e.user_id == subB) = true := hp.2
    unfold entryIdMatches at hm
    rw [hid] at hm
    have hide : a.id = e.id := by simpa using hm
    have hea : e = a := huniq e he hide.symm
    rw [hea] at hu
    exact hA (by simpa using hu)
  refine ⟨?_, ?_, ?_, ?_⟩
  · simp [handleUpdateSpendingEntry, hnone]
  · simp [handleDeleteSpendingEntry, hnone]
  · intro eid b2 s0 e he hne
    have hub : (e.user_id == subB) = false := beq_eq_false_iff_ne.mpr hne
    unfold handleUpdateSpendingEntry
    cases hfind : s0.spending_entries.find?
        (fun x => entryIdMatches eid x && x.user_id == subB) with
    | none => simpa using he
    | some ex =>
      simp only []
      refine List.mem_map.mpr ⟨e, he, ?_⟩
      simp [hub]
  · intro eid s0 e he hne
    have hub : (e.user_id == subB) = false := beq_eq_false_iff_ne.mpr hne
    unfold handleDeleteSpendingEntry
    cases hfind : s0.spending_entries.find?
        (fun x => entryIdMatches eid x && x.user_id == subB) with
    | none => simpa using he
    | some ex =>
      simp only []
      exact List.mem_filter.mpr ⟨he, by simp [hub]⟩

/-- C6 witness for `cross_user_update_delete_not_found`: user "B" targets
A's entry (id 1) in a store holding exactly that entry. -/
theorem cross_user_update_delete_not_found_witness :
    handleUpdateSpendingEntry "1" ⟨"2025-01-03", 9, "d", "c", false⟩ "B" storeAB =
      (storeAB, ⟨404, .err "Entry not found"⟩) ∧
    handleDeleteSpendingEntry "1" "B" storeAB =
      (storeAB, ⟨404, .err "Entry not found"⟩) ∧
    (∀ (eid : String) (b2 : EntryBody) (s0 : Store), ∀ e ∈ s0.spending_entries,
      e.user_id ≠ "B" →
      e ∈ (handleUpdateSpendingEntry eid b2 "B" s0).1.spending_entries) ∧
    (∀ (eid : String) (s0 : Store), ∀ e ∈ s0.spending_entries,
      e.user_id ≠ "B" →
      e ∈ (handleDeleteSpendingEntry eid "B" s0).1.spending_entries) :=
  cross_user_update_delete_not_found storeAB entryA ⟨"2025-01-03", 9, "d", "c", false⟩
    "B" "1" (List.mem_singleton.mpr rfl) (by decide) (by decide)
    (fun e he _ => List.mem_singleton.mp he)

/-- C7: adding a spending entry and immediately listing the same user's
entries for the same date returns a 200 success whose list contains the
created row with the submitted amount, description, category and necessity
flag. -/
theorem add_then_get_round_trip (body : EntryBody) (sub : String) (hsub : sub ≠ "")
    (now : Nat) (s : Store) :
    ∃ l : List SpendingEntry,
      handleGetSpendingEntries (some sub) (some body.date) sub true
        (handleAddSpendingEntry body sub now s).1 = ⟨200, .ok l⟩ ∧
      ∃ e ∈ l, e.user_id = sub ∧ e.date = body.date ∧ e.amount = body.amount ∧
        e.description = body.description ∧ e.category = body.category ∧
        e.is_necessary = body.isNecessary := by
  set row : SpendingEntry :=
    { id := s.nextEntryId
      user_id := sub
      date := body.date
      amount := body.amount
      description := body.description
      category := body.category
      is_necessary := body.isNecessary
      created_at := now } with hrow
  have hs1 : (handleAddSpendingEntry body sub now s).1.spending_entries =
      s.spending_entries ++ [row] := rfl
  have hget : handleGetSpendingEntries (some sub) (some body.date) sub true
      (handleAddSpendingEntry body sub now s).1 =
      ⟨200, .ok (querySpendingEntries (handleAddSpendingEntry body sub now s).1
        sub (some body.date))⟩ := by
    simp [handleGetSpendingEntries, truthy, hsub]
  refine ⟨_, hget, row, ?_, rfl, rfl, rfl, rfl, rfl, rfl⟩
  unfold querySpendingEntries
  rw [List.mem_insertionSort]
  rw [hs1]
  refine List.mem_filter.mpr ⟨List.mem_append_right _ (List.mem_singleton.mpr rfl), ?_⟩
  simp

/-- C7 witness for `add_then_get_round_trip` at a concrete body, subject,
clock and the empty store. -/
theorem add_then_get_round_trip_witness :
    ∃ l : List SpendingEntry,
      handleGetSpendingEntries (some "abc") (some "2025-01-02") "abc" true
        (handleAddSpendingEntry ⟨"2025-01-02", 12, "tea", "food", true⟩ "abc" 1700
          emptyStore).1 = ⟨200, .ok l⟩ ∧
      ∃ e ∈ l, e.user_id = "abc" ∧ e.date = "2025-01-02" ∧ e.amount = 12 ∧
        e.description = "tea" ∧ e.category = "food" ∧ e.is_necessary = true :=
  add_then_get_round_trip ⟨"2025-01-02", 12, "tea", "food", true⟩ "abc" (by decide)
    1700 emptyStore

/-- Fixture: the store after one chat turn at clock 1000 from the empty
store — the user message and the advisor reply share the same timestamp. -/
def chatStoreEx : Store :=
  { emptyStore with
    chat_messages :=
      [{ id := 1, user_id := "abc", message := "hi", is_user := true, timestamp := 1000 },
       { id := 2, user_id := "abc", message := "hello", is_user := false, timestamp := 1000 }]
    nextMsgId := 3 }

/-- C8 counterexample: a single chat turn (reachable from the empty store via
`handleChatMessage`) produces two history messages with equal timestamps, so
the returned list is not strictly ordered newest-first. -/
theorem chat_history_tie_counterexample :
    handleChatMessage "hi" "abc" 1000 (.response "hello") emptyStore =
      .ok (chatStoreEx, ⟨200, .ok
        { id := "1000", userId := "abc", message := "hello"
          isUser := false, timestamp := 1000 }⟩) ∧
    handleGetChatHistory (some "abc") "abc" chatStoreEx = ⟨200, .ok
      [{ id := "1", userId := "abc", message := "hi", isUser := true, timestamp := 1000 },
       { id := "2", userId := "abc", message := "hello", isUser := false, timestamp := 1000 }]⟩ ∧
    ¬ List.Pairwise (fun a b : ChatMsgData => b.timestamp < a.timestamp)
      [{ id := "1", userId := "abc", message := "hi", isUser := true, timestamp := 1000 },
       { id := "2", userId := "abc", message := "hello", isUser := false, timestamp := 1000 }] := by
  refine ⟨by decide, by decide, ?_⟩
  intro hp
  rcases List.pairwise_cons.mp hp with ⟨hrel, -⟩
  exact absurd (hrel _ (List.mem_singleton.mpr rfl)) (by decide)

/-- C8 (amended): an authorized chat-history request returns at most 50
messages ordered newest-first by timestamp non-strictly (each message's
timestamp is at least the next one's; ties occur because both messages of a
chat turn are stamped with the same NOW()). -/
theorem chat_history_limit_and_order (uid : String) (s : Store) :
    ∃ out : List ChatMsgData,
      handleGetChatHistory (some uid) uid s = ⟨200, .ok out⟩ ∧
      out.length ≤ 50 ∧
      List.Pairwise (fun a b => b.timestamp ≤ a.timestamp) out := by
  unfold handleGetChatHistory
  rw [if_neg (by simp : ¬ (some uid ≠ some uid))]
  refine ⟨_, rfl, ?_, ?_⟩
  · rw [List.length_map]
    unfold queryChatHistory
    rw [List.length_take]
    exact min_le_left _ _
  · unfold queryChatHistory
    have hsorted : List.Pairwise (fun (a b : ChatMessage) => b.timestamp ≤ a.timestamp)
        (List.insertionSort (fun a b => b.timestamp ≤ a.timestamp)
          (s.chat_messages.filter (fun m => m.user_id == uid))) :=
      List.sorted_insertionSort _ _
    have htake := List.Pairwise.sublist (List.take_sublist 50 _) hsorted
    exact List.pairwise_map.mpr htake

/-- C9: successful creates return `Date.now().toString()` as the payload id
while the stored row receives the auto-increment counter; with row ids within
the INT range and a realistic millisecond clock above it, updating or
deleting by the returned id finds no row (404 "Entry not found"). -/
theorem create_id_is_clock_not_row_id (body : EntryBody) (gbody : GoalBody)
    (sub t : String) (ht : t ≠ "") (now : Nat) (s : Store) (dbOk : Bool)
    (hids : ∀ e ∈ (handleAddSpendingEntry body sub now s).1.spending_entries,
      e.id ≤ 2147483647)
    (hnow : 2147483647 < now)
    (hparse : natOfDigits (Nat.repr now).data = some now) :
    (handleAddSpendingEntry body sub now s).2 = ⟨200, .ok
      { id := Nat.repr now
        userId := sub
        date := body.date
        amount := body.amount
        description := body.description
        category := body.category
        isNecessary := body.isNecessary
        createdAt := now }⟩ ∧
    (handleAddSpendingEntry body sub now s).1.spending_entries =
      s.spending_entries ++
        [{ id := s.nextEntryId
           user_id := sub
           date := body.date
           amount := body.amount
           description := body.description
           category := body.category
           is_necessary := body.isNecessary
           created_at := now }] ∧
    (∃ s2, handleSetSavingsGoal gbody sub now (.response t) dbOk s =
      .ok (s2, ⟨200, .ok
        { id := Nat.repr now
          userId := sub
          monthlyIncome := gbody.monthlyIncome
          monthlySavingsGoal := gbody.monthlySavingsGoal
          savingsPlan := t
          createdAt := now
          updatedAt := now }⟩)) ∧
    handleUpdateSpendingEntry (Nat.repr now) body sub
        (handleAddSpendingEntry body sub now s).1 =
      ((handleAddSpendingEntry body sub now s).1, ⟨404, .err "Entry not found"⟩) ∧
    handleDeleteSpendingEntry (Nat.repr now) sub
        (handleAddSpendingEntry body sub now s).1 =
      ((handleAddSpendingEntry body sub now s).1, ⟨404, .err "Entry not found"⟩) := by
  have hcg : callGemini (.response t) = .ok t := by
    simp [callGemini, geminiTryBody, ht]
  have hnone : (handleAddSpendingEntry body sub now s).1.spending_entries.find?
      (fun e => entryIdMatches (Nat.repr now) e && e.user_id == sub) = none := by
    rw [List.find?_eq_none]
    intro e he hp
    rw [Bool.and_eq_true] at hp
    have hm := hp.1
    unfold entryIdMatches at hm
    rw [hparse] at hm
    have hne : now = e.id := by simpa using hm
    have hle := hids e he
    omega
  have hset : handleSetSavingsGoal gbody sub now (.response t) dbOk s =
      .ok ((if dbOk then
              upsertSavingsGoal s sub gbody.monthlyIncome gbody.monthlySavingsGoal t now
            else s),
        ⟨200, .ok
          { id := Nat.repr now
            userId := sub
            monthlyIncome := gbody.monthlyIncome
            monthlySavingsGoal := gbody.monthlySavingsGoal
            savingsPlan := t
            createdAt := now
            updatedAt := now }⟩) := by
    simp [handleSetSavingsGoal, hcg]
  refine ⟨rfl, rfl, ⟨_, hset⟩, ?_, ?_⟩
  · simp [handleUpdateSpendingEntry, hnone]
  · simp [handleDeleteSpendingEntry, hnone]

/-- C9 witness for `create_id_is_clock_not_row_id`: clock 1760000000000 ms,
empty store (the created row gets id 1). -/
theorem create_id_is_clock_not_row_id_witness :
    (handleAddSpendingEntry ⟨"2025-01-02", 12, "tea", "food", true⟩ "abc"
        1760000000000 emptyStore).2 = ⟨200, .ok
      { id := Nat.repr 1760000000000
        userId := "abc"
        date := "2025-01-02"
        amount := 12
        description := "tea"
        category := "food"
        isNecessary := true
        createdAt := 1760000000000 }⟩ ∧
    (handleAddSpendingEntry ⟨"2025-01-02", 12, "tea", "food", true⟩ "abc"
        1760000000000 emptyStore).1.spending_entries =
      emptyStore.spending_entries ++
        [{ id := emptyStore.nextEntryId
           user_id := "abc"
           date := "2025-01-02"
           amount := 12
           description := "tea"
           category := "food"
           is_necessary := true
           created_at := 1760000000000 }] ∧
    (∃ s2, handleSetSavingsGoal ⟨3000, 900⟩ "abc" 1760000000000 (.response "plan")
        true emptyStore =
      .ok (s2, ⟨200, .ok
        { id := Nat.repr 1760000000000
          userId := "abc"
          monthlyIncome := 3000
          monthlySavingsGoal := 900
          savingsPlan := "plan"
          createdAt := 1760000000000
          updatedAt := 1760000000000 }⟩)) ∧
    handleUpdateSpendingEntry (Nat.repr 1760000000000)
        ⟨"2025-01-02", 12, "tea", "food", true⟩ "abc"
        (handleAddSpendingEntry ⟨"2025-01-02", 12, "tea", "food", true⟩ "abc"
          1760000000000 emptyStore).1 =
      ((handleAddSpendingEntry ⟨"2025-01-02", 12, "tea", "food", true⟩ "abc"
          1760000000000 emptyStore).1, ⟨404, .err "Entry not found"⟩) ∧
    handleDeleteSpendingEntry (Nat.repr 1760000000000) "abc"
        (handleAddSpendingEntry ⟨"2025-01-02", 12, "tea", "food", true⟩ "abc"
          1760000000000 emptyStore).1 =
      ((handleAddSpendingEntry ⟨"2025-01-02", 12, "tea", "food", true⟩ "abc"
          1760000000000 emptyStore).1, ⟨404, .err "Entry not found"⟩) :=
  create_id_is_clock_not_row_id ⟨"2025-01-02", 12, "tea", "food", true⟩ ⟨3000, 900⟩
    "abc" "plan" (by decide) 1760000000000 emptyStore true
    (by
      intro e he
      rw [List.mem_singleton.mp he]
      decide)
    (by decide) (by decide)

/-- C10: a successful update leaves the stored entry's `created_at` (and id
and owner) unchanged — only date, amount, description, category and
is_necessary are set — and the response's `createdAt` is the entry's
original `created_at`. -/
theorem update_preserves_created_at (s : Store) (a : SpendingEntry) (body : EntryBody)
    (entryId : String) (ha : a ∈ s.spending_entries)
    (hid : natOfDigits entryId.data = some a.id)
    (huniq : ∀ e ∈ s.spending_entries, e.id = a.id → e = a) :
    (handleUpdateSpendingEntry entryId body a.user_id s).2 = ⟨200, .ok
      { id := entryId
        userId := a.user_id
        date := body.date
        amount := body.amount
        description := body.description
        category := body.category
        isNecessary := body.isNecessary
        createdAt := a.created_at }⟩ ∧
    ({ a with
        date := body.date
        amount := body.amount
        description := body.description
        category := body.category
        is_necessary := body.isNecessary } : SpendingEntry)
      ∈ (handleUpdateSpendingEntry entryId body a.user_id s).1.spending_entries ∧
    ∀ e ∈ (handleUpdateSpendingEntry entryId body a.user_id s).1.spending_entries,
      e.id = a.id → e.created_at = a.created_at := by
  have hpa : (entryIdMatches entryId a && a.user_id == a.user_id) = true := by
    simp [entryIdMatches, hid]
  have hfind : s.spending_entries.find?
      (fun e => entryIdMatches entryId e && e.user_id == a.user_id) = some a :=
    find_unique ha hpa (fun e he hp => by
      rw [Bool.and_eq_true] at hp
      have hm := hp.1
      unfold entryIdMatches at hm
      rw [hid] at hm
      have hm2 : a.id = e.id := by simpa using hm
      exact huniq e he hm2.symm)
  refine ⟨?_, ?_, ?_⟩
  · simp [handleUpdateSpendingEntry, hfind]
  · unfold handleUpdateSpendingEntry
    rw [hfind]
    refine List.mem_map.mpr ⟨a, ha, ?_⟩
    rw [if_pos hpa]
  · intro e he hide
    unfold handleUpdateSpendingEntry at he
    rw [hfind] at he
    obtain ⟨e0, he0, hfe⟩ := List.mem_map.mp he
    by_cases hc : (entryIdMatches entryId e0 && e0.user_id == a.user_id) = true
    · rw [if_pos hc] at hfe
      have hid0 : e0.id = a.id := by
        rw [← hfe] at hide
        exact hide
      have he0a : e0 = a := huniq e0 he0 hid0
      rw [← hfe, he0a]
    · rw [if_neg hc] at hfe
      have hid0 : e0.id = a.id := by
        rw [← hfe] at hide
        exact hide
      have he0a : e0 = a := huniq e0 he0 hid0
      rw [← hfe, he0a]

/-- C10 witness for `update_preserves_created_at`: A updates their own
entry (id 1, created_at 5) in a store holding exactly that entry. -/
theorem update_preserves_created_at_witness :
    (handleUpdateSpendingEntry "1" ⟨"2025-01-03", 9, "d", "c", false⟩ entryA.user_id
        storeAB).2 = ⟨200, .ok
      { id := "1"
        userId := entryA.user_id
        date := "2025-01-03"
        amount := 9
        description := "d"
        category := "c"
        isNecessary := false
        createdAt := entryA.created_at }⟩ ∧
    ({ entryA with
        date := "2025-01-03"
        amount := 9
        description := "d"
        category := "c"
        is_necessary := false } : SpendingEntry)
      ∈ (handleUpdateSpendingEntry "1" ⟨"2025-01-03", 9, "d", "c", false⟩ entryA.user_id
          storeAB).1.spending_entries ∧
    ∀ e ∈ (handleUpdateSpendingEntry "1" ⟨"2025-01-03", 9, "d", "c", false⟩
        entryA.user_id storeAB).1.spending_entries,
      e.id = entryA.id → e.created_at = entryA.created_at :=
  update_preserves_created_at storeAB entryA ⟨"2025-01-03", 9, "d", "c", false⟩ "1"
    (List.mem_singleton.mpr rfl) (by decide)
    (fun e he _ => List.mem_singleton.mp he)

end MindMoney
